import Mathlib

/-!
Shallow embedding of the commit-gen pipeline
(src/internal/generator/generator.go; pkg/commitgen holds a textually
identical copy of the façade and generator).

The repository layer shells out to git.  We model the external world as a
function from the git command issued to its outcome: either the process's
stdout (`Except.ok`) or the message of the exec error (`Except.error`).
Every repository operation additionally returns the list of git commands it
actually ran, so that "does not invoke X" claims are statable.  Go's
`(T, error)` return pairs are modelled as `T × Option String`, the `Option`
being the (nil-able) error message built by `fmt.Errorf`.
-/

namespace CommitGen

/-- Model of Go's `strings.TrimSpace`: drop leading and trailing whitespace. -/
def trimSpace (s : String) : String :=
  String.mk (((s.data.dropWhile Char.isWhitespace).reverse.dropWhile
    Char.isWhitespace).reverse)

/-- The git subprocess invocations made by `GitRepository`:
`git --no-pager diff --staged`, `git log -<count>`, `git log -<count> --oneline`. -/
inductive GitCmd : Type
  | diffStaged : GitCmd
  | logDetailed (count : Nat) : GitCmd
  | logOneline (count : Nat) : GitCmd
  deriving DecidableEq

/-- The external git world: what each command produces when run
(`Except.ok stdout` or `Except.error execErrorMessage`). -/
def GitExec : Type := GitCmd → Except String String

/-- `GitInfo` from generator.go: all the git information needed for
commit message generation. -/
structure GitInfo : Type where
  StagedDiff : String
  RecentCommits : String
  HasHistory : Bool
  deriving DecidableEq

/-- `GitRepository.GetStagedDiff`: runs `git --no-pager diff --staged`;
on exec failure returns `("", fmt.Errorf("failed to get staged diff: %w", err))`,
otherwise the raw (untrimmed) stdout. -/
def GetStagedDiff (env : GitExec) : (String × Option String) × List GitCmd :=
  match env GitCmd.diffStaged with
  | Except.error e => (("", some ("failed to get staged diff: " ++ e)), [GitCmd.diffStaged])
  | Except.ok out => ((out, none), [GitCmd.diffStaged])

/-- `GitRepository.GetRecentCommits`: runs `git log -<count> --oneline`;
exec failure wraps as "failed to get recent commits: %w"; a whitespace-only
output is turned into the error "no git history found"; otherwise the raw
output is returned. -/
def GetRecentCommits (env : GitExec) (count : Nat) :
    (String × Option String) × List GitCmd :=
  match env (GitCmd.logOneline count) with
  | Except.error e =>
      (("", some ("failed to get recent commits: " ++ e)), [GitCmd.logOneline count])
  | Except.ok out =>
      if trimSpace out = "" then
        (("", some "no git history found"), [GitCmd.logOneline count])
      else
        ((out, none), [GitCmd.logOneline count])

/-- `GitRepository.GetDetailedCommitHistory`: runs `git log -<count>`;
exec failure wraps as "failed to get detailed commit history: %w"; a
whitespace-only output is the error "no git history found"; otherwise the
raw output is returned. -/
def GetDetailedCommitHistory (env : GitExec) (count : Nat) :
    (String × Option String) × List GitCmd :=
  match env (GitCmd.logDetailed count) with
  | Except.error e =>
      (("", some ("failed to get detailed commit history: " ++ e)), [GitCmd.logDetailed count])
  | Except.ok out =>
      if trimSpace out = "" then
        (("", some "no git history found"), [GitCmd.logDetailed count])
      else
        ((out, none), [GitCmd.logDetailed count])

/-- `GitRepository.HasStagedChanges`: calls `GetStagedDiff`; on its error
returns `(false, err)`; otherwise `strings.TrimSpace(diff) != ""`. -/
def HasStagedChanges (env : GitExec) : (Bool × Option String) × List GitCmd :=
  match GetStagedDiff env with
  | ((_, some e), t) => ((false, some e), t)
  | ((diff, none), t) => ((trimSpace diff != "", none), t)

/-- `GitRepository.GetCommitContext`: check staged changes (wrapping an
error as "failed to check for staged changes: %w", and failing with
"no staged changes found" when there are none), fetch the staged diff,
then try detailed history for the last 10 commits, falling back to the
one-line form, and finally to `hasHistory = false` with empty history. -/
def GetCommitContext (env : GitExec) :
    (Option GitInfo × Option String) × List GitCmd :=
  match HasStagedChanges env with
  | ((_, some e), t1) =>
      ((none, some ("failed to check for staged changes: " ++ e)), t1)
  | ((hasStagedChanges, none), t1) =>
      if hasStagedChanges = false then
        ((none, some "no staged changes found"), t1)
      else
        match GetStagedDiff env with
        | ((_, some e), t2) => ((none, some e), t1 ++ t2)
        | ((diff, none), t2) =>
            match GetDetailedCommitHistory env 10 with
            | ((detailed, none), t3) =>
                ((some ⟨diff, detailed, true⟩, none), t1 ++ t2 ++ t3)
            | ((_, some _), t3) =>
                match GetRecentCommits env 10 with
                | ((oneline, none), t4) =>
                    ((some ⟨diff, oneline, true⟩, none), t1 ++ t2 ++ t3 ++ t4)
                | ((_, some _), t4) =>
                    ((some ⟨diff, "", false⟩, none), t1 ++ t2 ++ t3 ++ t4)

/-- `getDefaultCommitExamples` from generator.go: example commit messages
used in place of history when no git history exists. -/
def getDefaultCommitExamples : String :=
  "Example commit messages for reference:\n\nfeat(auth): add JWT-based user authentication\n\n- Implement JWT token generation and validation\n- Add middleware for protecting authenticated routes\n- Create secure login/logout endpoints\n\nThis enables secure user sessions and improves API security\nby replacing cookie-based auth with industry-standard JWT tokens.\n\nfix(db): resolve connection timeout issues\n\n- Increase connection pool size from 10 to 50\n- Add retry logic for failed connections\n- Implement connection health checks\n\nFixes frequent timeout errors during peak usage periods\nthat were causing 500 errors for users.\n\nrefactor(api): simplify error handling across endpoints\n\n- Create centralized error handler middleware\n- Standardize error response format\n- Remove duplicate error handling code\n\nImproves code maintainability and provides consistent\nerror messages to frontend clients."

/-- `buildPrompt` from generator.go: `fmt.Sprintf("Recent git log:\n%s\n\nGit diff:\n%s\n", ...)`
with the real history when `HasHistory && RecentCommits != ""`, else with the
bundled examples. -/
def buildPrompt (gitInfo : GitInfo) : String :=
  if gitInfo.HasHistory && gitInfo.RecentCommits != "" then
    "Recent git log:\n" ++ gitInfo.RecentCommits ++ "\n\nGit diff:\n"
      ++ gitInfo.StagedDiff ++ "\n"
  else
    "Recent git log:\n" ++ getDefaultCommitExamples ++ "\n\nGit diff:\n"
      ++ gitInfo.StagedDiff ++ "\n"

/-- The remote text-completion endpoint (genai `GenerateContent`), abstracted:
given the system instruction and the user prompt it yields the generated text
or a call error. -/
def Endpoint : Type := String → String → Except String String

/-- `CommitMessageGenerator.GenerateCommitMessage`: build the prompt from the
`GitInfo`, issue one endpoint call, and wrap a call error as
"failed to generate commit message: %w". -/
def GenerateCommitMessage (endpoint : Endpoint) (systemPrompt : String)
    (gitInfo : GitInfo) : String × Option String :=
  match endpoint systemPrompt (buildPrompt gitInfo) with
  | Except.error e => ("", some ("failed to generate commit message: " ++ e))
  | Except.ok text => (text, none)

/-- `CommitGen.GenerateFromDiff`: build a `GitInfo` from the supplied diff and
history, marking `HasHistory := history != ""`, and forward it to
`GenerateCommitMessage`.  It runs no git command, so its trace is empty. -/
def GenerateFromDiff (endpoint : Endpoint) (systemPrompt : String)
    (diff history : String) : (String × Option String) × List GitCmd :=
  (GenerateCommitMessage endpoint systemPrompt
    ⟨diff, history, history != ""⟩, [])

end CommitGen

namespace CommitGen

/-- trimSpace of the empty string is empty. -/
theorem trimSpace_empty_eq : trimSpace "" = "" := rfl

/-- A string with non-empty trim is itself non-empty. -/
theorem ne_empty_of_trimSpace_ne (s : String) (h : trimSpace s ≠ "") : s ≠ "" := by
  intro he
  subst he
  exact h rfl

/-- Two string appends differ whenever the left parts differ within their
common first k characters. -/
theorem append_ne_of_take_ne (p q a b : String) (k : Nat)
    (hp : k ≤ p.data.length) (hq : k ≤ q.data.length)
    (hne : p.data.take k ≠ q.data.take k) : p ++ a ≠ q ++ b := by
  intro h
  apply hne
  have hd := congrArg String.data h
  rw [String.data_append, String.data_append] at hd
  have h2 := congrArg (List.take k) hd
  rwa [List.take_append_of_le_length hp, List.take_append_of_le_length hq] at h2

/-- C1: for the context with stagedDiff "+added line", recentHistory
"abc123 initial commit" and hasHistory true, buildPrompt yields exactly
"Recent git log:\nabc123 initial commit\n\nGit diff:\n+added line\n". -/
theorem C1_buildPrompt_roundtrip :
    buildPrompt ⟨"+added line", "abc123 initial commit", true⟩
      = "Recent git log:\nabc123 initial commit\n\nGit diff:\n+added line\n" := by
  rfl

/-- C6: GenerateFromDiff with empty history is, result for result (and hence
prompt for prompt), the generation from the context with the same stagedDiff,
hasHistory false and recentHistory empty. -/
theorem C6_generateFromDiff_empty_history_equiv (endpoint : Endpoint)
    (systemPrompt diff : String) :
    GenerateFromDiff endpoint systemPrompt diff ""
      = (GenerateCommitMessage endpoint systemPrompt ⟨diff, "", false⟩, []) ∧
    buildPrompt ⟨diff, "", ("" != "" : Bool)⟩ = buildPrompt ⟨diff, "", false⟩ :=
  ⟨rfl, rfl⟩

/-- C4: whenever HasStagedChanges reports false without error,
GetCommitContext fails with "no staged changes found" and its whole trace is
the single staged-diff probe of that check: the diff is not re-fetched and
neither history command is run. -/
theorem C4_noStagedChanges_shortCircuit (env : GitExec) (t : List GitCmd)
    (h : HasStagedChanges env = ((false, none), t)) :
    GetCommitContext env
      = ((none, some "no staged changes found"), [GitCmd.diffStaged]) ∧
    (∀ n : Nat, GitCmd.logDetailed n ∉ (GetCommitContext env).2 ∧
      GitCmd.logOneline n ∉ (GetCommitContext env).2) ∧
    List.count GitCmd.diffStaged (GetCommitContext env).2 = 1 := by
  cases hd : env GitCmd.diffStaged with
  | error e =>
      exfalso
      simp [HasStagedChanges, GetStagedDiff, hd] at h
  | ok out =>
      have hb : (trimSpace out != "") = false := by
        have h' := h
        simp [HasStagedChanges, GetStagedDiff, hd] at h'
        simpa using h'.1
      have hc : GetCommitContext env
          = ((none, some "no staged changes found"), [GitCmd.diffStaged]) := by
        simp [GetCommitContext, HasStagedChanges, GetStagedDiff, hd, hb]
      refine ⟨hc, ?_, ?_⟩
      · intro n
        rw [hc]
        constructor <;> simp
      · rw [hc]
        simp

/-- Repository world used to exercise the no-staged-changes path: every git
command succeeds with empty output. -/
def envAllEmpty : GitExec := fun _ => Except.ok ""

/-- C4 witness: with every command returning empty output, HasStagedChanges
is false and GetCommitContext short-circuits after the single probe. -/
theorem C4_noStagedChanges_shortCircuit_witness :
    HasStagedChanges envAllEmpty = ((false, none), [GitCmd.diffStaged]) ∧
    GetCommitContext envAllEmpty
      = ((none, some "no staged changes found"), [GitCmd.diffStaged]) :=
  ⟨rfl, (C4_noStagedChanges_shortCircuit envAllEmpty [GitCmd.diffStaged] rfl).1⟩

end CommitGen

namespace CommitGen

/-- C7: HasStagedChanges mirrors the staged-diff query: on success it reports
whether the trimmed output is non-empty (with no error), on query failure it
reports false together with the wrapped IOFailure message, and it is true
exactly when the query succeeded with non-whitespace output. -/
theorem C7_hasStagedChanges_spec (env : GitExec) :
    (∀ out, env GitCmd.diffStaged = Except.ok out →
      HasStagedChanges env
        = (((trimSpace out != ""), none), [GitCmd.diffStaged])) ∧
    (∀ e, env GitCmd.diffStaged = Except.error e →
      HasStagedChanges env
        = ((false, some ("failed to get staged diff: " ++ e)), [GitCmd.diffStaged])) ∧
    ((HasStagedChanges env).1.1 = true ↔
      ∃ out, env GitCmd.diffStaged = Except.ok out ∧ trimSpace out ≠ "") := by
  refine ⟨?_, ?_, ?_⟩
  · intro out hout
    simp [HasStagedChanges, GetStagedDiff, hout]
  · intro e he
    simp [HasStagedChanges, GetStagedDiff, he]
  · cases hd : env GitCmd.diffStaged with
    | error e => simp [HasStagedChanges, GetStagedDiff, hd]
    | ok out => simp [HasStagedChanges, GetStagedDiff, hd, bne_iff_ne]

/-- Repository world where the staged-diff query succeeds with a real diff. -/
def envDiffOk : GitExec := fun _ => Except.ok "+y\n"

/-- Repository world where every git command fails to run. -/
def envAllFail : GitExec := fun _ => Except.error "denied"

/-- C7 witness: concrete success and failure worlds for HasStagedChanges. -/
theorem C7_hasStagedChanges_spec_witness :
    HasStagedChanges envDiffOk = ((true, none), [GitCmd.diffStaged]) ∧
    HasStagedChanges envAllFail
      = ((false, some "failed to get staged diff: denied"), [GitCmd.diffStaged]) := by
  constructor
  · exact (C7_hasStagedChanges_spec envDiffOk).1 "+y\n" rfl
  · exact (C7_hasStagedChanges_spec envAllFail).2.1 "denied" rfl

/-- C8: each history query fails with "no git history found" exactly when the
underlying git command succeeded with whitespace-only output, fails with a
wrapped IOFailure message when the command could not run, returns the raw
output on success, and the two failure messages can never coincide. -/
theorem C8_history_error_classes (env : GitExec) (count : Nat) :
    ((GetDetailedCommitHistory env count).1.2 = some "no git history found" ↔
      ∃ out, env (GitCmd.logDetailed count) = Except.ok out ∧ trimSpace out = "") ∧
    (∀ e, env (GitCmd.logDetailed count) = Except.error e →
      GetDetailedCommitHistory env count
        = (("", some ("failed to get detailed commit history: " ++ e)),
           [GitCmd.logDetailed count])) ∧
    (∀ out, env (GitCmd.logDetailed count) = Except.ok out → trimSpace out ≠ "" →
      GetDetailedCommitHistory env count = ((out, none), [GitCmd.logDetailed count])) ∧
    ((GetRecentCommits env count).1.2 = some "no git history found" ↔
      ∃ out, env (GitCmd.logOneline count) = Except.ok out ∧ trimSpace out = "") ∧
    (∀ e, env (GitCmd.logOneline count) = Except.error e →
      GetRecentCommits env count
        = (("", some ("failed to get recent commits: " ++ e)),
           [GitCmd.logOneline count])) ∧
    (∀ out, env (GitCmd.logOneline count) = Except.ok out → trimSpace out ≠ "" →
      GetRecentCommits env count = ((out, none), [GitCmd.logOneline count])) ∧
    (∀ e, ("no git history found" : String)
      ≠ "failed to get detailed commit history: " ++ e) ∧
    (∀ e, ("no git history found" : String)
      ≠ "failed to get recent commits: " ++ e) := by
  refine ⟨?_, ?_, ?_, ?_, ?_, ?_, ?_, ?_⟩
  · cases hd : env (GitCmd.logDetailed count) with
    | error e =>
        simp [GetDetailedCommitHistory, hd]
        intro h
        have h2 := congrArg String.length h
        rw [String.length_append] at h2
        have hl : ("no git history found" : String).length = 20 := by decide
        have hr : ("failed to get detailed commit history: " : String).length = 39 := by
          decide
        omega
    | ok out =>
        by_cases ht : trimSpace out = "" <;> simp [GetDetailedCommitHistory, hd, ht]
  · intro e he
    simp [GetDetailedCommitHistory, he]
  · intro out hout ht
    simp [GetDetailedCommitHistory, hout, ht]
  · cases hd : env (GitCmd.logOneline count) with
    | error e =>
        simp [GetRecentCommits, hd]
        intro h
        have h2 := congrArg String.length h
        rw [String.length_append] at h2
        have hl : ("no git history found" : String).length = 20 := by decide
        have hr : ("failed to get recent commits: " : String).length = 30 := by decide
        omega
    | ok out =>
        by_cases ht : trimSpace out = "" <;> simp [GetRecentCommits, hd, ht]
  · intro e he
    simp [GetRecentCommits, he]
  · intro out hout ht
    simp [GetRecentCommits, hout, ht]
  · intro e h
    have h2 := congrArg String.length h
    rw [String.length_append] at h2
    have hl : ("no git history found" : String).length = 20 := by decide
    have hr : ("failed to get detailed commit history: " : String).length = 39 := by decide
    omega
  · intro e h
    have h2 := congrArg String.length h
    rw [String.length_append] at h2
    have hl : ("no git history found" : String).length = 20 := by decide
    have hr : ("failed to get recent commits: " : String).length = 30 := by decide
    omega

/-- Repository world whose detailed log is whitespace-only while the one-line
log cannot run at all. -/
def envHistMixed : GitExec := fun c =>
  match c with
  | GitCmd.logDetailed _ => Except.ok " \n"
  | _ => Except.error "denied"

/-- Repository world whose git commands all succeed with a one-line log. -/
def envHistOk : GitExec := fun _ => Except.ok "abc123 initial commit\n"

/-- C8 witness: the empty-output and cannot-run failures at concrete worlds,
their distinct messages, and a raw success. -/
theorem C8_history_error_classes_witness :
    (GetDetailedCommitHistory envHistMixed 10).1.2 = some "no git history found" ∧
    GetRecentCommits envHistMixed 10
      = (("", some "failed to get recent commits: denied"), [GitCmd.logOneline 10]) ∧
    ("no git history found" : String)
      ≠ "failed to get detailed commit history: denied" ∧
    GetDetailedCommitHistory envHistOk 10
      = (("abc123 initial commit\n", none), [GitCmd.logDetailed 10]) := by
  obtain ⟨h1, _, _, _, h5, _, h7, _⟩ := C8_history_error_classes envHistMixed 10
  obtain ⟨_, _, h3, _, _, _, _, _⟩ := C8_history_error_classes envHistOk 10
  refine ⟨h1.mpr ⟨" \n", rfl, by decide⟩, h5 "denied" rfl, h7 "denied", ?_⟩
  exact h3 "abc123 initial commit\n" rfl (by decide)

end CommitGen

namespace CommitGen

/-- C3: buildPrompt inserts the supplied history verbatim exactly when
hasHistory is true and recentHistory is non-empty, and otherwise produces the
identical template with the bundled examples; in particular a gathered
context with hasHistory false always prompts with the example text. -/
theorem C3_buildPrompt_history_vs_examples :
    (∀ g : GitInfo,
      (g.HasHistory = true ∧ g.RecentCommits ≠ "" →
        buildPrompt g = "Recent git log:\n" ++ g.RecentCommits
          ++ "\n\nGit diff:\n" ++ g.StagedDiff ++ "\n") ∧
      (¬(g.HasHistory = true ∧ g.RecentCommits ≠ "") →
        buildPrompt g = "Recent git log:\n" ++ getDefaultCommitExamples
          ++ "\n\nGit diff:\n" ++ g.StagedDiff ++ "\n")) ∧
    (∀ (env : GitExec) (info : GitInfo) (t : List GitCmd),
      GetCommitContext env = ((some info, none), t) →
      info.HasHistory = false →
      buildPrompt info = "Recent git log:\n" ++ getDefaultCommitExamples
        ++ "\n\nGit diff:\n" ++ info.StagedDiff ++ "\n") := by
  have hmain : ∀ g : GitInfo,
      (g.HasHistory = true ∧ g.RecentCommits ≠ "" →
        buildPrompt g = "Recent git log:\n" ++ g.RecentCommits
          ++ "\n\nGit diff:\n" ++ g.StagedDiff ++ "\n") ∧
      (¬(g.HasHistory = true ∧ g.RecentCommits ≠ "") →
        buildPrompt g = "Recent git log:\n" ++ getDefaultCommitExamples
          ++ "\n\nGit diff:\n" ++ g.StagedDiff ++ "\n") := by
    intro g
    constructor
    · rintro ⟨h1, h2⟩
      simp [buildPrompt, h1, h2]
    · intro hno
      rcases Decidable.not_and_iff_or_not.mp hno with h | h
      · have h1 : g.HasHistory = false := by
          cases hh : g.HasHistory
          · rfl
          · exact absurd hh h
        simp [buildPrompt, h1]
      · have h2 : g.RecentCommits = "" := not_not.mp h
        simp [buildPrompt, h2]
  refine ⟨hmain, ?_⟩
  intro env info t _ hfalse
  exact (hmain info).2 (by simp [hfalse])

/-- Repository world with a staged diff but no usable history source. -/
def envNoHist : GitExec := fun c =>
  match c with
  | GitCmd.diffStaged => Except.ok "+x\n"
  | _ => Except.error "boom"

set_option maxRecDepth 40000 in
/-- C3 witness: both buildPrompt branches at concrete contexts, including a
context actually gathered by GetCommitContext with hasHistory false. -/
theorem C3_buildPrompt_history_vs_examples_witness :
    buildPrompt ⟨"+d", "h1", true⟩ = "Recent git log:\nh1\n\nGit diff:\n+d\n" ∧
    buildPrompt ⟨"+d", "", true⟩
      = "Recent git log:\n" ++ getDefaultCommitExamples ++ "\n\nGit diff:\n+d\n" ∧
    buildPrompt ⟨"+x\n", "", false⟩
      = "Recent git log:\n" ++ getDefaultCommitExamples ++ "\n\nGit diff:\n+x\n\n" := by
  refine ⟨?_, ?_, ?_⟩
  · exact (C3_buildPrompt_history_vs_examples.1 ⟨"+d", "h1", true⟩).1 ⟨rfl, by decide⟩
  · exact (C3_buildPrompt_history_vs_examples.1 ⟨"+d", "", true⟩).2 (by simp)
  · exact C3_buildPrompt_history_vs_examples.2 envNoHist ⟨"+x\n", "", false⟩
      [GitCmd.diffStaged, GitCmd.diffStaged, GitCmd.logDetailed 10, GitCmd.logOneline 10]
      rfl rfl

end CommitGen

namespace CommitGen

/-- C2: once the staged diff is obtained, GetCommitContext attempts the
detailed 10-commit history first, falls back to the 10-commit summary on its
failure, succeeds with hasHistory false and empty history when both fail, and
never returns an error caused by history. -/
theorem C2_history_fallback_never_fatal (env : GitExec) (d : String)
    (hd : env GitCmd.diffStaged = Except.ok d) (ht : trimSpace d ≠ "") :
    (∃ rest, (GetCommitContext env).2
      = [GitCmd.diffStaged, GitCmd.diffStaged, GitCmd.logDetailed 10] ++ rest) ∧
    ((GetDetailedCommitHistory env 10).1.2 ≠ none →
      GitCmd.logOneline 10 ∈ (GetCommitContext env).2) ∧
    ((GetDetailedCommitHistory env 10).1.2 ≠ none →
     (GetRecentCommits env 10).1.2 ≠ none →
      GetCommitContext env = ((some ⟨d, "", false⟩, none),
        [GitCmd.diffStaged, GitCmd.diffStaged, GitCmd.logDetailed 10,
         GitCmd.logOneline 10])) ∧
    (GetCommitContext env).1.2 = none ∧
    (∃ info, (GetCommitContext env).1.1 = some info ∧ info.StagedDiff = d) := by
  have hb : (trimSpace d != "") = true := bne_iff_ne.mpr ht
  cases hdet : env (GitCmd.logDetailed 10) with
  | ok out3 =>
      by_cases ht3 : trimSpace out3 = ""
      · have hdfail : (GetDetailedCommitHistory env 10).1.2 = some "no git history found" := by
          simp [GetDetailedCommitHistory, hdet, ht3]
        cases hone : env (GitCmd.logOneline 10) with
        | ok out4 =>
            by_cases ht4 : trimSpace out4 = ""
            · have hctx : GetCommitContext env = ((some ⟨d, "", false⟩, none),
                  [GitCmd.diffStaged, GitCmd.diffStaged, GitCmd.logDetailed 10,
                   GitCmd.logOneline 10]) := by
                simp [GetCommitContext, HasStagedChanges, GetStagedDiff, hd, hb,
                  GetDetailedCommitHistory, hdet, ht3, GetRecentCommits, hone, ht4]
              refine ⟨⟨[GitCmd.logOneline 10], by rw [hctx]; rfl⟩, ?_, ?_, ?_, ?_⟩
              · intro _; rw [hctx]; simp
              · intro _ _; exact hctx
              · rw [hctx]
              · exact ⟨⟨d, "", false⟩, by rw [hctx], rfl⟩
            · have hctx : GetCommitContext env = ((some ⟨d, out4, true⟩, none),
                  [GitCmd.diffStaged, GitCmd.diffStaged, GitCmd.logDetailed 10,
                   GitCmd.logOneline 10]) := by
                simp [GetCommitContext, HasStagedChanges, GetStagedDiff, hd, hb,
                  GetDetailedCommitHistory, hdet, ht3, GetRecentCommits, hone, ht4]
              refine ⟨⟨[GitCmd.logOneline 10], by rw [hctx]; rfl⟩, ?_, ?_, ?_, ?_⟩
              · intro _; rw [hctx]; simp
              · intro _ h4
                exact absurd (by simp [GetRecentCommits, hone, ht4]) h4
              · rw [hctx]
              · exact ⟨⟨d, out4, true⟩, by rw [hctx], rfl⟩
        | error e4 =>
            have hctx : GetCommitContext env = ((some ⟨d, "", false⟩, none),
                [GitCmd.diffStaged, GitCmd.diffStaged, GitCmd.logDetailed 10,
                 GitCmd.logOneline 10]) := by
              simp [GetCommitContext, HasStagedChanges, GetStagedDiff, hd, hb,
                GetDetailedCommitHistory, hdet, ht3, GetRecentCommits, hone]
            refine ⟨⟨[GitCmd.logOneline 10], by rw [hctx]; rfl⟩, ?_, ?_, ?_, ?_⟩
            · intro _; rw [hctx]; simp
            · intro _ _; exact hctx
            · rw [hctx]
            · exact ⟨⟨d, "", false⟩, by rw [hctx], rfl⟩
      · have hctx : GetCommitContext env = ((some ⟨d, out3, true⟩, none),
            [GitCmd.diffStaged, GitCmd.diffStaged, GitCmd.logDetailed 10]) := by
          simp [GetCommitContext, HasStagedChanges, GetStagedDiff, hd, hb,
            GetDetailedCommitHistory, hdet, ht3]
        refine ⟨⟨[], by rw [hctx]; rfl⟩, ?_, ?_, ?_, ?_⟩
        · intro h3
          exact absurd (by simp [GetDetailedCommitHistory, hdet, ht3]) h3
        · intro h3 _
          exact absurd (by simp [GetDetailedCommitHistory, hdet, ht3]) h3
        · rw [hctx]
        · exact ⟨⟨d, out3, true⟩, by rw [hctx], rfl⟩
  | error e3 =>
      cases hone : env (GitCmd.logOneline 10) with
      | ok out4 =>
          by_cases ht4 : trimSpace out4 = ""
          · have hctx : GetCommitContext env = ((some ⟨d, "", false⟩, none),
                [GitCmd.diffStaged, GitCmd.diffStaged, GitCmd.logDetailed 10,
                 GitCmd.logOneline 10]) := by
              simp [GetCommitContext, HasStagedChanges, GetStagedDiff, hd, hb,
                GetDetailedCommitHistory, hdet, GetRecentCommits, hone, ht4]
            refine ⟨⟨[GitCmd.logOneline 10], by rw [hctx]; rfl⟩, ?_, ?_, ?_, ?_⟩
            · intro _; rw [hctx]; simp
            · intro _ _; exact hctx
            · rw [hctx]
            · exact ⟨⟨d, "", false⟩, by rw [hctx], rfl⟩
          · have hctx : GetCommitContext env = ((some ⟨d, out4, true⟩, none),
                [GitCmd.diffStaged, GitCmd.diffStaged, GitCmd.logDetailed 10,
                 GitCmd.logOneline 10]) := by
              simp [GetCommitContext, HasStagedChanges, GetStagedDiff, hd, hb,
                GetDetailedCommitHistory, hdet, GetRecentCommits, hone, ht4]
            refine ⟨⟨[GitCmd.logOneline 10], by rw [hctx]; rfl⟩, ?_, ?_, ?_, ?_⟩
            · intro _; rw [hctx]; simp
            · intro _ h4
              exact absurd (by simp [GetRecentCommits, hone, ht4]) h4
            · rw [hctx]
            · exact ⟨⟨d, out4, true⟩, by rw [hctx], rfl⟩
      | error e4 =>
          have hctx : GetCommitContext env = ((some ⟨d, "", false⟩, none),
              [GitCmd.diffStaged, GitCmd.diffStaged, GitCmd.logDetailed 10,
               GitCmd.logOneline 10]) := by
            simp [GetCommitContext, HasStagedChanges, GetStagedDiff, hd, hb,
              GetDetailedCommitHistory, hdet, GetRecentCommits, hone]
          refine ⟨⟨[GitCmd.logOneline 10], by rw [hctx]; rfl⟩, ?_, ?_, ?_, ?_⟩
          · intro _; rw [hctx]; simp
          · intro _ _; exact hctx
          · rw [hctx]
          · exact ⟨⟨d, "", false⟩, by rw [hctx], rfl⟩

/-- Repository world with a staged diff where both history commands fail. -/
def envHistFailBoth : GitExec := fun c =>
  match c with
  | GitCmd.diffStaged => Except.ok "+x\n"
  | _ => Except.error "boom"

/-- C2 witness: with a concrete staged diff and both history commands failing,
the gathered context still succeeds with hasHistory false, and the summary
fallback was attempted after the detailed attempt. -/
theorem C2_history_fallback_never_fatal_witness :
    GetCommitContext envHistFailBoth = ((some ⟨"+x\n", "", false⟩, none),
      [GitCmd.diffStaged, GitCmd.diffStaged, GitCmd.logDetailed 10,
       GitCmd.logOneline 10]) ∧
    GitCmd.logOneline 10 ∈ (GetCommitContext envHistFailBoth).2 := by
  obtain ⟨_, h2, h3, _, _⟩ :=
    C2_history_fallback_never_fatal envHistFailBoth "+x\n" rfl (by decide)
  exact ⟨h3 (by decide) (by decide), h2 (by decide)⟩

end CommitGen

namespace CommitGen

/-- Any successfully gathered context carries either a real (trim non-empty)
history with hasHistory true, or the empty history with hasHistory false. -/
theorem GetCommitContext_success_cases (env : GitExec) (info : GitInfo)
    (t : List GitCmd) (heq : GetCommitContext env = ((some info, none), t)) :
    (info.HasHistory = true ∧ trimSpace info.RecentCommits ≠ "") ∨
    (info.HasHistory = false ∧ info.RecentCommits = "") := by
  cases hd : env GitCmd.diffStaged with
  | error e =>
      simp [GetCommitContext, HasStagedChanges, GetStagedDiff, hd] at heq
  | ok d =>
    by_cases htd : trimSpace d = ""
    · simp [GetCommitContext, HasStagedChanges, GetStagedDiff, hd, htd] at heq
    · have hb : (trimSpace d != "") = true := bne_iff_ne.mpr htd
      cases hdet : env (GitCmd.logDetailed 10) with
      | ok out3 =>
        by_cases ht3 : trimSpace out3 = ""
        · cases hone : env (GitCmd.logOneline 10) with
          | ok out4 =>
            by_cases ht4 : trimSpace out4 = ""
            · have hctx : GetCommitContext env = ((some ⟨d, "", false⟩, none),
                  [GitCmd.diffStaged, GitCmd.diffStaged, GitCmd.logDetailed 10,
                   GitCmd.logOneline 10]) := by
                simp [GetCommitContext, HasStagedChanges, GetStagedDiff, hd, hb,
                  GetDetailedCommitHistory, hdet, ht3, GetRecentCommits, hone, ht4]
              rw [hctx] at heq
              have hinfo := Option.some.inj (congrArg (fun p => p.1.1) heq)
              exact Or.inr (by rw [← hinfo]; exact ⟨rfl, rfl⟩)
            · have hctx : GetCommitContext env = ((some ⟨d, out4, true⟩, none),
                  [GitCmd.diffStaged, GitCmd.diffStaged, GitCmd.logDetailed 10,
                   GitCmd.logOneline 10]) := by
                simp [GetCommitContext, HasStagedChanges, GetStagedDiff, hd, hb,
                  GetDetailedCommitHistory, hdet, ht3, GetRecentCommits, hone, ht4]
              rw [hctx] at heq
              have hinfo := Option.some.inj (congrArg (fun p => p.1.1) heq)
              exact Or.inl (by rw [← hinfo]; exact ⟨rfl, ht4⟩)
          | error e4 =>
            have hctx : GetCommitContext env = ((some ⟨d, "", false⟩, none),
                [GitCmd.diffStaged, GitCmd.diffStaged, GitCmd.logDetailed 10,
                 GitCmd.logOneline 10]) := by
              simp [GetCommitContext, HasStagedChanges, GetStagedDiff, hd, hb,
                GetDetailedCommitHistory, hdet, ht3, GetRecentCommits, hone]
            rw [hctx] at heq
            have hinfo := Option.some.inj (congrArg (fun p => p.1.1) heq)
            exact Or.inr (by rw [← hinfo]; exact ⟨rfl, rfl⟩)
        · have hctx : GetCommitContext env = ((some ⟨d, out3, true⟩, none),
              [GitCmd.diffStaged, GitCmd.diffStaged, GitCmd.logDetailed 10]) := by
            simp [GetCommitContext, HasStagedChanges, GetStagedDiff, hd, hb,
              GetDetailedCommitHistory, hdet, ht3]
          rw [hctx] at heq
          have hinfo := Option.some.inj (congrArg (fun p => p.1.1) heq)
          exact Or.inl (by rw [← hinfo]; exact ⟨rfl, ht3⟩)
      | error e3 =>
        cases hone : env (GitCmd.logOneline 10) with
        | ok out4 =>
          by_cases ht4 : trimSpace out4 = ""
          · have hctx : GetCommitContext env = ((some ⟨d, "", false⟩, none),
                [GitCmd.diffStaged, GitCmd.diffStaged, GitCmd.logDetailed 10,
                 GitCmd.logOneline 10]) := by
              simp [GetCommitContext, HasStagedChanges, GetStagedDiff, hd, hb,
                GetDetailedCommitHistory, hdet, GetRecentCommits, hone, ht4]
            rw [hctx] at heq
            have hinfo := Option.some.inj (congrArg (fun p => p.1.1) heq)
            exact Or.inr (by rw [← hinfo]; exact ⟨rfl, rfl⟩)
          · have hctx : GetCommitContext env = ((some ⟨d, out4, true⟩, none),
                [GitCmd.diffStaged, GitCmd.diffStaged, GitCmd.logDetailed 10,
                 GitCmd.logOneline 10]) := by
              simp [GetCommitContext, HasStagedChanges, GetStagedDiff, hd, hb,
                GetDetailedCommitHistory, hdet, GetRecentCommits, hone, ht4]
            rw [hctx] at heq
            have hinfo := Option.some.inj (congrArg (fun p => p.1.1) heq)
            exact Or.inl (by rw [← hinfo]; exact ⟨rfl, ht4⟩)
        | error e4 =>
          have hctx : GetCommitContext env = ((some ⟨d, "", false⟩, none),
              [GitCmd.diffStaged, GitCmd.diffStaged, GitCmd.logDetailed 10,
               GitCmd.logOneline 10]) := by
            simp [GetCommitContext, HasStagedChanges, GetStagedDiff, hd, hb,
              GetDetailedCommitHistory, hdet, GetRecentCommits, hone]
          rw [hctx] at heq
          have hinfo := Option.some.inj (congrArg (fun p => p.1.1) heq)
          exact Or.inr (by rw [← hinfo]; exact ⟨rfl, rfl⟩)

/-- C9: every context reaching the generator satisfies hasHistory =
(recentHistory non-empty): a gathered context has hasHistory true only with a
trim non-empty history, hasHistory false only with the empty history, and
GenerateFromDiff constructs its context with exactly this relation. -/
theorem C9_gitInfo_invariant :
    (∀ (env : GitExec) (info : GitInfo) (t : List GitCmd),
      GetCommitContext env = ((some info, none), t) →
      (info.HasHistory = true → trimSpace info.RecentCommits ≠ "") ∧
      (info.HasHistory = false → info.RecentCommits = "") ∧
      (info.HasHistory = true ↔ info.RecentCommits ≠ "")) ∧
    (∀ (endpoint : Endpoint) (systemPrompt diff history : String),
      GenerateFromDiff endpoint systemPrompt diff history
        = (GenerateCommitMessage endpoint systemPrompt
            ⟨diff, history, history != ""⟩, [])) := by
  constructor
  · intro env info t heq
    rcases GetCommitContext_success_cases env info t heq with ⟨h1, h2⟩ | ⟨h1, h2⟩
    · refine ⟨fun _ => h2, fun hf => by simp [h1] at hf, ?_, fun _ => h1⟩
      intro _
      exact ne_empty_of_trimSpace_ne _ h2
    · refine ⟨fun htr => by simp [h1] at htr, fun _ => h2, ?_, ?_⟩
      · intro htr
        simp [h1] at htr
      · intro hne
        exact absurd h2 hne
  · intro endpoint systemPrompt diff history
    rfl

/-- Repository world where the staged diff and the detailed log both
succeed with real output. -/
def envRichHist : GitExec := fun c =>
  match c with
  | GitCmd.diffStaged => Except.ok "+x\n"
  | GitCmd.logDetailed _ => Except.ok "commit abc123\nAuthor: a\n"
  | GitCmd.logOneline _ => Except.ok "abc123 ic\n"

/-- C9 witness: the invariant instantiated at a concretely gathered context
and at a concrete GenerateFromDiff call. -/
theorem C9_gitInfo_invariant_witness :
    trimSpace "commit abc123\nAuthor: a\n" ≠ "" ∧
    ("commit abc123\nAuthor: a\n" : String) ≠ "" ∧
    GenerateFromDiff (fun _ p => Except.ok p) "S" "+d" ""
      = (GenerateCommitMessage (fun _ p => Except.ok p) "S"
          ⟨"+d", "", ("" != "")⟩, []) := by
  have h := C9_gitInfo_invariant.1 envRichHist
    ⟨"+x\n", "commit abc123\nAuthor: a\n", true⟩
    [GitCmd.diffStaged, GitCmd.diffStaged, GitCmd.logDetailed 10] rfl
  exact ⟨h.1 rfl, h.2.2.mp rfl,
    C9_gitInfo_invariant.2 (fun _ p => Except.ok p) "S" "+d" ""⟩

end CommitGen

namespace CommitGen

/-- C5: GenerateFromDiff builds its context directly from the supplied diff
and history with hasHistory = (history != ""), forwards it to the generator,
runs no git command, and can only fail with a wrapped endpoint-call error:
never with the no-staged-changes error nor a repository IOFailure message. -/
theorem C5_generateFromDiff_error_class (endpoint : Endpoint)
    (systemPrompt diff history : String) :
    GenerateFromDiff endpoint systemPrompt diff history
      = (GenerateCommitMessage endpoint systemPrompt
          ⟨diff, history, history != ""⟩, []) ∧
    (GenerateFromDiff endpoint systemPrompt diff history).2 = [] ∧
    (∀ e, (GenerateFromDiff endpoint systemPrompt diff history).1.2 = some e →
      (∃ cause, e = "failed to generate commit message: " ++ cause ∧
        endpoint systemPrompt
          (buildPrompt ⟨diff, history, history != ""⟩) = Except.error cause) ∧
      e ≠ "no staged changes found" ∧
      (∀ c, e ≠ "failed to get staged diff: " ++ c) ∧
      (∀ c, e ≠ "failed to check for staged changes: " ++ c)) ∧
    ((GenerateFromDiff endpoint systemPrompt diff history).1.2 = none ↔
      ∃ text, endpoint systemPrompt
        (buildPrompt ⟨diff, history, history != ""⟩) = Except.ok text) := by
  refine ⟨rfl, rfl, ?_, ?_⟩
  · intro e he
    cases hep : endpoint systemPrompt (buildPrompt ⟨diff, history, history != ""⟩) with
    | ok text =>
        exfalso
        simp [GenerateFromDiff, GenerateCommitMessage, hep] at he
    | error cause =>
        have he2 : e = "failed to generate commit message: " ++ cause := by
          simp [GenerateFromDiff, GenerateCommitMessage, hep] at he
          exact he.symm
        subst he2
        refine ⟨⟨cause, rfl, rfl⟩, ?_, ?_, ?_⟩
        · intro hcontra
          have h2 := congrArg String.length hcontra
          rw [String.length_append] at h2
          have hl1 : ("failed to generate commit message: " : String).length = 35 := by
            decide
          have hl2 : ("no staged changes found" : String).length = 23 := by decide
          omega
        · intro c
          exact append_ne_of_take_ne _ _ _ _ 13 (by decide) (by decide) (by decide)
        · intro c
          exact append_ne_of_take_ne _ _ _ _ 11 (by decide) (by decide) (by decide)
  · cases hep : endpoint systemPrompt (buildPrompt ⟨diff, history, history != ""⟩) with
    | ok text => simp [GenerateFromDiff, GenerateCommitMessage, hep]
    | error cause => simp [GenerateFromDiff, GenerateCommitMessage, hep]

/-- Remote endpoint whose every call fails, as after a timeout. -/
def endpointDown : Endpoint := fun _ _ => Except.error "timeout"

/-- C5 witness: a failing endpoint yields exactly the wrapped endpoint-call
error, which is not the no-staged-changes error. -/
theorem C5_generateFromDiff_error_class_witness :
    (GenerateFromDiff endpointDown "S" "+d" "").1.2
      = some "failed to generate commit message: timeout" ∧
    (∃ cause, ("failed to generate commit message: timeout" : String)
        = "failed to generate commit message: " ++ cause ∧
      endpointDown "S" (buildPrompt ⟨"+d", "", ("" != "")⟩)
        = Except.error cause) ∧
    ("failed to generate commit message: timeout" : String)
      ≠ "no staged changes found" := by
  have h := (C5_generateFromDiff_error_class endpointDown "S" "+d" "").2.2.1
    "failed to generate commit message: timeout" rfl
  exact ⟨rfl, h.1, h.2.1⟩

set_option maxRecDepth 40000 in
/-- C10: the branch test of buildPrompt is untrimmed byte equality with the
empty string, so a non-empty whitespace-only history makes GenerateFromDiff
mark hasHistory true and the whitespace is inserted verbatim in place of the
history; the bundled examples are not used. -/
theorem C10_whitespace_history_taken_verbatim (h diff : String)
    (hne : h ≠ "") (hws : trimSpace h = "") :
    (h != "") = true ∧
    (∀ (endpoint : Endpoint) (systemPrompt : String),
      GenerateFromDiff endpoint systemPrompt diff h
        = (GenerateCommitMessage endpoint systemPrompt ⟨diff, h, true⟩, [])) ∧
    buildPrompt ⟨diff, h, (h != "")⟩
      = "Recent git log:\n" ++ h ++ "\n\nGit diff:\n" ++ diff ++ "\n" ∧
    buildPrompt ⟨diff, h, (h != "")⟩
      ≠ "Recent git log:\n" ++ getDefaultCommitExamples
        ++ "\n\nGit diff:\n" ++ diff ++ "\n" := by
  have hb : (h != "") = true := bne_iff_ne.mpr hne
  have hexne : h ≠ getDefaultCommitExamples := by
    intro hcontra
    rw [hcontra] at hws
    exact absurd hws (by decide)
  have hbp : buildPrompt ⟨diff, h, (h != "")⟩
      = "Recent git log:\n" ++ h ++ "\n\nGit diff:\n" ++ diff ++ "\n" := by
    simp [buildPrompt, hb]
  refine ⟨hb, ?_, hbp, ?_⟩
  · intro endpoint systemPrompt
    simp [GenerateFromDiff, hb]
  · rw [hbp]
    intro hcontra
    apply hexne
    have hd1 := congrArg String.data hcontra
    simp only [String.data_append, List.append_assoc] at hd1
    have hd2 := List.append_cancel_left hd1
    have hd3 := List.append_cancel_right hd2
    exact congrArg String.mk hd3

/-- C10 witness: the single-space history is non-empty, whitespace-only, and
inserted verbatim into the prompt. -/
theorem C10_whitespace_history_taken_verbatim_witness :
    (" " : String) ≠ "" ∧ trimSpace " " = "" ∧
    buildPrompt ⟨"+d", " ", (" " != "")⟩
      = "Recent git log:\n \n\nGit diff:\n+d\n" := by
  have h := C10_whitespace_history_taken_verbatim " " "+d" (by decide) (by decide)
  refine ⟨by decide, by decide, ?_⟩
  rw [h.2.2.1]
  rfl

end CommitGen
